import Mathlib

/-!
Shallow embedding of the EEG backend HTTP service
(src/backend/rust-backend/src/main.rs).

The service has four data endpoints: GET /dbtest (trivial storage
round-trip), GET /samples (bounded window, newest first), GET /live
(incremental tail read with cursor), plus static GET / and GET /health.
Each handler resolves defaults for its query parameters, issues one SQL
SELECT through the connection pool, and shapes the rows into a response;
a storage error is mapped to status 500 carrying the error text.

The storage collaborator (PostgreSQL) is modelled by a stored table,
a list of rows in insertion order, together with the semantics of the
two SELECT statements the service issues: filtering on the bound
parameters, ORDER BY id (modelled by insertion sort on the id key) and
LIMIT (modelled by take; a negative LIMIT is a PostgreSQL query error).
Handlers are parameterised by the fetch function so that error
propagation can be stated for an arbitrary storage collaborator; the
table-backed instantiations are liveOn and samplesOn below.

The floating-point sample value is carried through verbatim and never
inspected, compared or computed with by the service, so the Float field
is pure payload in every theorem below.
-/

/-- A stored row of the eeg_samples table, as in struct EegSample:
id, ts, channel, value. -/
structure EegSample where
  id : Int
  ts : String
  channel : String
  value : Float

/-- A point of the /live response, as in struct LivePoint: the SQL of
get_live projects SELECT id, ts, value (channel omitted per point). -/
structure LivePoint where
  id : Int
  ts : String
  value : Float

/-- Decoded query parameters, as in struct LiveQuery; both /samples and
/live deserialise into this shape (axum Query extractor). -/
structure LiveQuery where
  channel : Option String
  since_id : Option Int
  limit : Option Int

/-- The /live response body: points, last_id, channel. -/
structure LiveResponse where
  points : List LivePoint
  last_id : Int
  channel : String

/-- The /dbtest response body, from json with fields ok and value. -/
structure DbTestResponse where
  ok : Bool
  value : Int

/-- Models Rust FromStr for i32 as used by serde to deserialise the
since_id and limit query fields: an optional single sign followed by at
least one ASCII digit, and the value must fit in a 32-bit signed
integer; anything else fails to parse. -/
def parseI32 (s : String) : Option Int :=
  let signAndDigits : Int × List Char :=
    match s.toList with
    | '+' :: rest => (1, rest)
    | '-' :: rest => (-1, rest)
    | rest => (1, rest)
  let digits := signAndDigits.2
  if digits.isEmpty then none
  else if digits.all Char.isDigit then
    let v : Int := signAndDigits.1 * digits.foldl (fun acc c => acc * 10 + ((c.toNat : Int) - 48)) 0
    if -2147483648 ≤ v ∧ v ≤ 2147483647 then some v else none
  else none

/-- Raw query-string parameters of a request, before deserialisation. -/
structure RawQuery where
  channel : Option String
  since_id : Option String
  limit : Option String

/-- Deserialisation of one optional i32 field by the axum Query
extractor: an absent field is None, a present field must parse as i32
or the whole request is rejected with status 400 before the handler
runs. -/
def decodeI32Field (v : Option String) : Except (Nat × String) (Option Int) :=
  match v with
  | none => Except.ok none
  | some s =>
    match parseI32 s with
    | none => Except.error (400, "Failed to deserialize query string")
    | some n => Except.ok (some n)

/-- The axum Query extractor for struct LiveQuery: channel is passed
through as an optional string, since_id and limit must each parse as
i32 when present. -/
def decodeLiveQuery (raw : RawQuery) : Except (Nat × String) LiveQuery :=
  match decodeI32Field raw.since_id with
  | Except.error e => Except.error e
  | Except.ok s =>
    match decodeI32Field raw.limit with
    | Except.error e => Except.error e
    | Except.ok l => Except.ok ⟨raw.channel, s, l⟩

/-- Handler of GET /dbtest: one trivial storage round-trip (SELECT 1);
a storage error becomes status 500 with the error text as body. -/
def dbtest (fetchOne : Except String Int) : Except (Nat × String) DbTestResponse :=
  match fetchOne with
  | Except.error e => Except.error (500, e)
  | Except.ok v => Except.ok ⟨true, v⟩

/-- Handler of GET /samples, as in get_samples: channel defaults to
"A3", limit defaults to 100 and is clamped by .min(1000); one SELECT is
issued at the resolved channel and limit, a storage error becomes
status 500 with the error text, otherwise the rows are returned as the
JSON body. -/
def get_samples (fetch : String → Int → Except String (List EegSample))
    (params : LiveQuery) : Except (Nat × String) (List EegSample) :=
  let channel := params.channel.getD "A3"
  let limit := min (params.limit.getD 100) 1000
  match fetch channel limit with
  | Except.error e => Except.error (500, e)
  | Except.ok samples => Except.ok samples

/-- Handler of GET /live, as in get_live: channel defaults to "A3",
since_id defaults to 0, limit defaults to 200 and is clamped by
.min(1000); one SELECT is issued at the resolved arguments, a storage
error becomes status 500 with the error text, otherwise last_id is the
id of the last fetched point (the fetch returns ascending ids) or
since_id when no point was fetched, and the response carries the
points, last_id and the resolved channel. -/
def get_live (fetch : String → Int → Int → Except String (List LivePoint))
    (params : LiveQuery) : Except (Nat × String) LiveResponse :=
  let channel := params.channel.getD "A3"
  let since_id := params.since_id.getD 0
  let limit := min (params.limit.getD 200) 1000
  match fetch channel since_id limit with
  | Except.error e => Except.error (500, e)
  | Except.ok points =>
    let last_id := ((points.getLast?).map LivePoint.id).getD since_id
    Except.ok ⟨points, last_id, channel⟩

/-- Ascending id order, the key of ORDER BY id ASC. -/
def idLeA (a b : EegSample) : Prop := a.id ≤ b.id

/-- Descending id order, the key of ORDER BY id DESC. -/
def idGeA (a b : EegSample) : Prop := b.id ≤ a.id

instance : DecidableRel idLeA := fun a b => inferInstanceAs (Decidable (a.id ≤ b.id))

instance : DecidableRel idGeA := fun a b => inferInstanceAs (Decidable (b.id ≤ a.id))

instance : IsTotal EegSample idLeA := ⟨fun a b => Int.le_total a.id b.id⟩

instance : IsTrans EegSample idLeA := ⟨fun _ _ _ h1 h2 => le_trans h1 h2⟩

instance : IsTotal EegSample idGeA := ⟨fun a b => Int.le_total b.id a.id⟩

instance : IsTrans EegSample idGeA := ⟨fun _ _ _ h1 h2 => le_trans h2 h1⟩

/-- Projection performed by the SQL of get_live: SELECT id, ts, value. -/
def livePointOfSample (r : EegSample) : LivePoint := ⟨r.id, r.ts, r.value⟩

/-- The semantics of the /samples SELECT against a stored table:
WHERE channel = $1, ORDER BY id DESC, LIMIT $2. A negative LIMIT
parameter is a PostgreSQL error; otherwise the first limit rows of the
descending ordering are returned. -/
def pgSamplesQuery (table : List EegSample) (channel : String) (limit : Int) :
    Except String (List EegSample) :=
  if limit < 0 then Except.error "LIMIT must not be negative"
  else Except.ok
    (((table.filter fun r => r.channel == channel).insertionSort idGeA).take limit.toNat)

/-- The semantics of the /live SELECT against a stored table:
WHERE channel = $1 AND id > $2, ORDER BY id ASC, LIMIT $3, projected to
(id, ts, value). A negative LIMIT parameter is a PostgreSQL error. -/
def pgLiveQuery (table : List EegSample) (channel : String) (since_id : Int) (limit : Int) :
    Except String (List LivePoint) :=
  if limit < 0 then Except.error "LIMIT must not be negative"
  else Except.ok
    ((((table.filter fun r => r.channel == channel && decide (since_id < r.id)).insertionSort
        idLeA).take limit.toNat).map livePointOfSample)

/-- GET /samples served from a stored table. -/
def samplesOn (table : List EegSample) (params : LiveQuery) :
    Except (Nat × String) (List EegSample) :=
  get_samples (pgSamplesQuery table) params

/-- GET /live served from a stored table. -/
def liveOn (table : List EegSample) (params : LiveQuery) :
    Except (Nat × String) LiveResponse :=
  get_live (pgLiveQuery table) params

/-- The data-model invariant of the stored table: ids are assigned
strictly increasing in insertion order and never reused. -/
def StrictAscTable (table : List EegSample) : Prop :=
  table.Pairwise fun a b => a.id < b.id

instance (table : List EegSample) : Decidable (StrictAscTable table) :=
  inferInstanceAs (Decidable (table.Pairwise fun (a b : EegSample) => a.id < b.id))

/-- GET /samples as reached over HTTP: extractor first, then handler. -/
def samplesEndpoint (fetch : String → Int → Except String (List EegSample))
    (raw : RawQuery) : Except (Nat × String) (List EegSample) :=
  match decodeLiveQuery raw with
  | Except.error e => Except.error e
  | Except.ok params => get_samples fetch params

/-- GET /live as reached over HTTP: extractor first, then handler. -/
def liveEndpoint (fetch : String → Int → Int → Except String (List LivePoint))
    (raw : RawQuery) : Except (Nat × String) LiveResponse :=
  match decodeLiveQuery raw with
  | Except.error e => Except.error e
  | Except.ok params => get_live fetch params

/-- A small stored table used to instantiate theorems at concrete
requests: channel A3 holds ids 1, 2, 3, 5 and channel B1 holds id 4. -/
def demoTable : List EegSample :=
  [⟨1, "t1", "A3", 0.5⟩, ⟨2, "t2", "A3", 0.25⟩, ⟨3, "t3", "A3", 0.75⟩,
   ⟨4, "t4", "B1", 0.1⟩, ⟨5, "t5", "A3", 0.9⟩]

/-- A storage collaborator whose /samples SELECT always fails. -/
def errSamplesFetch (e : String) : String → Int → Except String (List EegSample) :=
  fun _ _ => Except.error e

/-- A storage collaborator whose /live SELECT always fails. -/
def errLiveFetch (e : String) : String → Int → Int → Except String (List LivePoint) :=
  fun _ _ _ => Except.error e

/-- A storage collaborator whose /samples SELECT always yields the given rows. -/
def okSamplesFetch (rows : List EegSample) : String → Int → Except String (List EegSample) :=
  fun _ _ => Except.ok rows

/-- A storage collaborator whose /live SELECT always yields the given points. -/
def okLiveFetch (pts : List LivePoint) : String → Int → Int → Except String (List LivePoint) :=
  fun _ _ _ => Except.ok pts

/-- A /live request: channel A3, cursor 2, limit 10. -/
def demoLiveParams : LiveQuery := ⟨some "A3", some 2, some 10⟩

/-- The /live response to demoLiveParams on demoTable: ids 3 and 5. -/
def demoLiveResp : LiveResponse := ⟨[⟨3, "t3", 0.75⟩, ⟨5, "t5", 0.9⟩], 5, "A3"⟩

/-- A first /live poll: channel A3, cursor 0, limit 2. -/
def demoFirstParams : LiveQuery := ⟨some "A3", some 0, some 2⟩

/-- The /live response to demoFirstParams on demoTable: ids 1 and 2. -/
def demoFirstResp : LiveResponse := ⟨[⟨1, "t1", 0.5⟩, ⟨2, "t2", 0.25⟩], 2, "A3"⟩

/-- A /samples request: channel A3, limit 2. -/
def demoSamplesParams : LiveQuery := ⟨some "A3", none, some 2⟩

/-- The /samples response to demoSamplesParams on demoTable: ids 5, 3. -/
def demoSamplesRows : List EegSample := [⟨5, "t5", "A3", 0.9⟩, ⟨3, "t3", "A3", 0.75⟩]

/-- A request for a channel no stored row carries. -/
def demoUnknownParams : LiveQuery := ⟨some "ZZ", some 3, some 10⟩

/-- A request with limit = 0. -/
def demoZeroParams : LiveQuery := ⟨none, some 7, some 0⟩

/-- Unfolding equation for get_samples with defaults resolved. -/
theorem get_samples_eq (fetch : String → Int → Except String (List EegSample))
    (params : LiveQuery) :
    get_samples fetch params =
      match fetch (params.channel.getD "A3") (min (params.limit.getD 100) 1000) with
      | Except.error e => Except.error (500, e)
      | Except.ok samples => Except.ok samples := rfl

/-- Unfolding equation for get_live with defaults resolved. -/
theorem get_live_eq (fetch : String → Int → Int → Except String (List LivePoint))
    (params : LiveQuery) :
    get_live fetch params =
      match fetch (params.channel.getD "A3") (params.since_id.getD 0)
          (min (params.limit.getD 200) 1000) with
      | Except.error e => Except.error (500, e)
      | Except.ok points =>
        Except.ok ⟨points, ((points.getLast?).map LivePoint.id).getD (params.since_id.getD 0),
          params.channel.getD "A3"⟩ := rfl

/-- C4: for every request to /samples and to /live, the storage query
is issued with limit exactly min(requested-or-default, 1000), with
defaults 100 for /samples and 200 for /live, so the applied limit never
exceeds 1000 however large a limit the caller requests. -/
theorem applied_limit_clamped (params : LiveQuery)
    (qs : String → Int → Except String (List EegSample))
    (ql : String → Int → Int → Except String (List LivePoint)) :
    (get_samples qs params =
      match qs (params.channel.getD "A3") (min (params.limit.getD 100) 1000) with
      | Except.error e => Except.error (500, e)
      | Except.ok samples => Except.ok samples) ∧
    (get_live ql params =
      match ql (params.channel.getD "A3") (params.since_id.getD 0)
          (min (params.limit.getD 200) 1000) with
      | Except.error e => Except.error (500, e)
      | Except.ok points =>
        Except.ok ⟨points, ((points.getLast?).map LivePoint.id).getD (params.since_id.getD 0),
          params.channel.getD "A3"⟩) ∧
    min (params.limit.getD 100) 1000 ≤ 1000 ∧
    min (params.limit.getD 200) 1000 ≤ 1000 := by
  refine ⟨rfl, rfl, min_le_right _ _, min_le_right _ _⟩

/-- C10: when the channel parameter is absent both endpoints behave
exactly as if the literal default channel "A3" had been supplied, and
/live echoes this defaulted value back in its channel field. -/
theorem default_channel_A3 (params : LiveQuery)
    (qs : String → Int → Except String (List EegSample))
    (ql : String → Int → Int → Except String (List LivePoint))
    (hnone : params.channel = none) :
    get_samples qs params = get_samples qs { params with channel := some "A3" } ∧
    get_live ql params = get_live ql { params with channel := some "A3" } ∧
    (∀ resp, get_live ql params = Except.ok resp → resp.channel = "A3") := by
  refine ⟨?_, ?_, ?_⟩
  · simp [get_samples, hnone]
  · simp [get_live, hnone]
  · intro resp hresp
    rw [get_live_eq] at hresp
    cases hq : ql (params.channel.getD "A3") (params.since_id.getD 0)
        (min (params.limit.getD 200) 1000) with
    | error e => rw [hq] at hresp; cases hresp
    | ok pts =>
      rw [hq] at hresp
      injection hresp with h2
      rw [← h2, hnone]
      rfl

/-- C10 witness at a concrete request with no channel parameter. -/
theorem default_channel_A3_witness :
    ((⟨none, some 2, some 10⟩ : LiveQuery).channel = none) ∧
    (get_samples (pgSamplesQuery []) ⟨none, some 2, some 10⟩ =
      get_samples (pgSamplesQuery []) ⟨some "A3", some 2, some 10⟩ ∧
    get_live (pgLiveQuery []) ⟨none, some 2, some 10⟩ =
      get_live (pgLiveQuery []) ⟨some "A3", some 2, some 10⟩ ∧
    (∀ resp, get_live (pgLiveQuery []) ⟨none, some 2, some 10⟩ = Except.ok resp →
      resp.channel = "A3")) :=
  ⟨rfl, default_channel_A3 ⟨none, some 2, some 10⟩ (pgSamplesQuery []) (pgLiveQuery []) rfl⟩

/-- Inversion of a successful /live SELECT: the rows it returned. -/
theorem pgLiveQuery_ok {table : List EegSample} {c : String} {s n : Int}
    {pts : List LivePoint} (h : pgLiveQuery table c s n = Except.ok pts) :
    pts = (((table.filter fun r => r.channel == c && decide (s < r.id)).insertionSort
        idLeA).take n.toNat).map livePointOfSample := by
  unfold pgLiveQuery at h
  by_cases hneg : n < 0
  · rw [if_pos hneg] at h; cases h
  · rw [if_neg hneg] at h; injection h with h2; exact h2.symm

/-- Inversion of a successful /samples SELECT: the rows it returned. -/
theorem pgSamplesQuery_ok {table : List EegSample} {c : String} {n : Int}
    {rows : List EegSample} (h : pgSamplesQuery table c n = Except.ok rows) :
    rows = ((table.filter fun r => r.channel == c).insertionSort idGeA).take n.toNat := by
  unfold pgSamplesQuery at h
  by_cases hneg : n < 0
  · rw [if_pos hneg] at h; cases h
  · rw [if_neg hneg] at h; injection h with h2; exact h2.symm

/-- The result of the /live SELECT is weakly sorted by id ascending. -/
theorem liveSelect_sorted (table : List EegSample) (c : String) (s : Int) (m : Nat) :
    ((((table.filter fun r => r.channel == c && decide (s < r.id)).insertionSort
        idLeA).take m).map livePointOfSample).Pairwise fun p q => p.id ≤ q.id := by
  rw [List.pairwise_map]
  exact (List.Pairwise.sublist (List.take_sublist _ _)
    (List.sorted_insertionSort idLeA _)).imp fun hab => hab

/-- Every point of the /live SELECT has its id strictly above the cursor. -/
theorem liveSelect_mem_gt {table : List EegSample} {c : String} {s : Int} {m : Nat}
    {p : LivePoint}
    (hp : p ∈ (((table.filter fun r => r.channel == c && decide (s < r.id)).insertionSort
        idLeA).take m).map livePointOfSample) : s < p.id := by
  rcases List.mem_map.mp hp with ⟨r, hr, rfl⟩
  have hr2 : r ∈ table.filter fun r => r.channel == c && decide (s < r.id) :=
    (List.mem_insertionSort idLeA).mp (List.mem_of_mem_take hr)
  have hpred := (List.mem_filter.mp hr2).2
  rw [Bool.and_eq_true] at hpred
  exact of_decide_eq_true hpred.2

/-- In a list weakly sorted by id ascending, every id is bounded by the
id of the last element. -/
theorem le_getLast_of_sorted {l : List LivePoint}
    (h : l.Pairwise fun p q => p.id ≤ q.id) (hne : l ≠ []) :
    ∀ p ∈ l, p.id ≤ (l.getLast hne).id := by
  intro p hp
  have hsplit : l.dropLast ++ [l.getLast hne] = l := List.dropLast_append_getLast hne
  rw [← hsplit] at h hp
  rcases List.mem_append.mp hp with hp1 | hp2
  · exact (List.pairwise_append.mp h).2.2 p hp1 _ (List.mem_singleton_self _)
  · rw [List.mem_singleton.mp hp2]

/-- With strictly ascending stored ids, the ascending SELECT keeps the
storage order: sorting is the identity on the filtered rows. -/
theorem insertionSort_asc_eq_filter {table : List EegSample} (hasc : StrictAscTable table)
    (p : EegSample → Bool) :
    (table.filter p).insertionSort idLeA = table.filter p := by
  have hasc2 : table.Pairwise fun a b => a.id < b.id := hasc
  have hsorted : List.Sorted idLeA (table.filter p) :=
    (List.Pairwise.sublist (List.filter_sublist table) hasc2).imp fun hab => le_of_lt hab
  exact hsorted.insertionSort_eq

/-- Inserting an element smaller than every element of a descending
list appends it at the end. -/
theorem orderedInsert_bottom (a : EegSample) :
    ∀ m : List EegSample, (∀ b ∈ m, ¬ idGeA a b) →
      List.orderedInsert idGeA a m = m ++ [a]
  | [], _ => rfl
  | b :: m, h => by
    have hb : ¬ idGeA a b := h b (List.mem_cons_self b m)
    simp only [List.orderedInsert, if_neg hb]
    rw [orderedInsert_bottom a m fun c hc => h c (List.mem_cons_of_mem b hc)]
    rfl

/-- With strictly ascending ids, the descending sort of ORDER BY id
DESC is exactly the reverse of the list. -/
theorem insertionSort_desc_eq_reverse :
    ∀ {l : List EegSample}, (l.Pairwise fun a b => a.id < b.id) →
      l.insertionSort idGeA = l.reverse
  | [], _ => rfl
  | a :: l, h => by
    have hh := List.pairwise_cons.mp h
    have hbelow : ∀ b ∈ l.reverse, ¬ idGeA a b := by
      intro b hb
      have hlt : a.id < b.id := hh.1 b (List.mem_reverse.mp hb)
      exact fun hge => absurd hlt (not_lt.mpr hge)
    simp only [List.insertionSort]
    rw [insertionSort_desc_eq_reverse hh.2, orderedInsert_bottom a l.reverse hbelow,
      List.reverse_cons]

/-- C7: for every request to /dbtest, /samples or /live, a storage
error is surfaced to the caller as status 500 with the diagnostic text
of the collaborator as the body, with no retry, and the operation
errors exactly when the storage query errors: a successful query always
yields a successful response. -/
theorem storage_error_propagation (params : LiveQuery) (e : String) (v : Int)
    (q1 : Except String Int)
    (qs : String → Int → Except String (List EegSample))
    (ql : String → Int → Int → Except String (List LivePoint))
    (q1b : Except String Int)
    (qsb : String → Int → Except String (List EegSample))
    (qlb : String → Int → Int → Except String (List LivePoint))
    (rows : List EegSample) (pts : List LivePoint)
    (h1 : q1 = Except.error e)
    (hs : qs (params.channel.getD "A3") (min (params.limit.getD 100) 1000) = Except.error e)
    (hl : ql (params.channel.getD "A3") (params.since_id.getD 0)
        (min (params.limit.getD 200) 1000) = Except.error e)
    (h1b : q1b = Except.ok v)
    (hsb : qsb (params.channel.getD "A3") (min (params.limit.getD 100) 1000) = Except.ok rows)
    (hlb : qlb (params.channel.getD "A3") (params.since_id.getD 0)
        (min (params.limit.getD 200) 1000) = Except.ok pts) :
    dbtest q1 = Except.error (500, e) ∧
    get_samples qs params = Except.error (500, e) ∧
    get_live ql params = Except.error (500, e) ∧
    dbtest q1b = Except.ok ⟨true, v⟩ ∧
    get_samples qsb params = Except.ok rows ∧
    get_live qlb params =
      Except.ok ⟨pts, ((pts.getLast?).map LivePoint.id).getD (params.since_id.getD 0),
        params.channel.getD "A3"⟩ := by
  refine ⟨?_, ?_, ?_, ?_, ?_, ?_⟩
  · rw [h1]; rfl
  · rw [get_samples_eq, hs]
  · rw [get_live_eq, hl]
  · rw [h1b]; rfl
  · rw [get_samples_eq, hsb]
  · rw [get_live_eq, hlb]

/-- C7 witness: concrete failing and succeeding storage collaborators. -/
theorem storage_error_propagation_witness :
    (errSamplesFetch "boom" "A3" (min ((some 7 : Option Int).getD 100) 1000) =
      Except.error "boom") ∧
    (dbtest (Except.error "boom") = Except.error (500, "boom") ∧
    get_samples (errSamplesFetch "boom") ⟨some "A3", some 0, some 7⟩ =
      Except.error (500, "boom") ∧
    get_live (errLiveFetch "boom") ⟨some "A3", some 0, some 7⟩ =
      Except.error (500, "boom") ∧
    dbtest (Except.ok 1) = Except.ok ⟨true, 1⟩ ∧
    get_samples (okSamplesFetch []) ⟨some "A3", some 0, some 7⟩ = Except.ok [] ∧
    get_live (okLiveFetch []) ⟨some "A3", some 0, some 7⟩ =
      Except.ok ⟨[], ((([] : List LivePoint).getLast?).map LivePoint.id).getD
        (((some 0 : Option Int)).getD 0), ((some "A3" : Option String)).getD "A3"⟩) :=
  ⟨rfl, storage_error_propagation ⟨some "A3", some 0, some 7⟩ "boom" 1
    (Except.error "boom") (errSamplesFetch "boom") (errLiveFetch "boom")
    (Except.ok 1) (okSamplesFetch []) (okLiveFetch []) [] []
    rfl rfl rfl rfl rfl rfl⟩

/-- C9: a request to /samples or /live whose limit or since_id
parameter is present but does not parse as an integer is rejected with
client error 400 by the extractor, for every storage collaborator alike
(the query executor never runs), and is never silently defaulted. -/
theorem malformed_numeric_param_rejected (raw : RawQuery) (s : String)
    (qs : String → Int → Except String (List EegSample))
    (ql : String → Int → Int → Except String (List LivePoint))
    (hbad : raw.limit = some s ∨ raw.since_id = some s)
    (hparse : parseI32 s = none) :
    samplesEndpoint qs raw = Except.error (400, "Failed to deserialize query string") ∧
    liveEndpoint ql raw = Except.error (400, "Failed to deserialize query string") := by
  have hdec : decodeLiveQuery raw =
      Except.error (400, "Failed to deserialize query string") := by
    rcases hbad with hlim | hsin
    · cases hsin2 : raw.since_id with
      | none => simp [decodeLiveQuery, decodeI32Field, hsin2, hlim, hparse]
      | some t =>
        cases hp : parseI32 t with
        | none => simp [decodeLiveQuery, decodeI32Field, hsin2, hp]
        | some k => simp [decodeLiveQuery, decodeI32Field, hsin2, hp, hlim, hparse]
    · simp [decodeLiveQuery, decodeI32Field, hsin, hparse]
  constructor
  · unfold samplesEndpoint
    rw [hdec]
  · unfold liveEndpoint
    rw [hdec]

/-- C9 witness: limit=abc is rejected with 400 at both endpoints. -/
theorem malformed_numeric_param_rejected_witness :
    ((⟨some "A3", none, some "abc"⟩ : RawQuery).limit = some "abc" ∨
      (⟨some "A3", none, some "abc"⟩ : RawQuery).since_id = some "abc") ∧
    parseI32 "abc" = none ∧
    (samplesEndpoint (pgSamplesQuery demoTable) ⟨some "A3", none, some "abc"⟩ =
      Except.error (400, "Failed to deserialize query string") ∧
    liveEndpoint (pgLiveQuery demoTable) ⟨some "A3", none, some "abc"⟩ =
      Except.error (400, "Failed to deserialize query string")) :=
  ⟨Or.inl rfl, by decide,
    malformed_numeric_param_rejected ⟨some "A3", none, some "abc"⟩ "abc"
      (pgSamplesQuery demoTable) (pgLiveQuery demoTable) (Or.inl rfl) (by decide)⟩

/-- C1: for every /live request, last_id is the highest id among the
returned points when the point list is non-empty, is the unchanged
since_id when no points are returned, and in particular when since_id
is at least every stored id of the channel the points are empty and
last_id equals since_id. -/
theorem live_last_id_cursor (table : List EegSample) (params : LiveQuery)
    (resp : LiveResponse) (hresp : liveOn table params = Except.ok resp) :
    (resp.points ≠ [] → resp.last_id ∈ resp.points.map LivePoint.id ∧
      ∀ p ∈ resp.points, p.id ≤ resp.last_id) ∧
    (resp.points = [] → resp.last_id = params.since_id.getD 0) ∧
    ((∀ r ∈ table, r.channel = params.channel.getD "A3" →
        r.id ≤ params.since_id.getD 0) →
      resp.points = [] ∧ resp.last_id = params.since_id.getD 0) := by
  unfold liveOn at hresp
  rw [get_live_eq] at hresp
  cases hq : pgLiveQuery table (params.channel.getD "A3") (params.since_id.getD 0)
      (min (params.limit.getD 200) 1000) with
  | error e => rw [hq] at hresp; cases hresp
  | ok pts =>
    rw [hq] at hresp
    injection hresp with hinj
    subst hinj
    dsimp only
    refine ⟨?_, ?_, ?_⟩
    · intro hne
      have hsorted : pts.Pairwise fun p q => p.id ≤ q.id := by
        rw [pgLiveQuery_ok hq]
        exact liveSelect_sorted _ _ _ _
      have hgl := List.getLast?_eq_getLast pts hne
      rw [hgl]
      constructor
      · exact List.mem_map_of_mem LivePoint.id (List.getLast_mem hne)
      · intro p hp
        exact le_getLast_of_sorted hsorted hne p hp
    · intro he
      rw [he]
      simp
    · intro hcover
      have hfil : (table.filter fun r => r.channel == params.channel.getD "A3" &&
          decide (params.since_id.getD 0 < r.id)) = [] := by
        rw [List.filter_eq_nil_iff]
        intro r hr hpred
        rw [Bool.and_eq_true] at hpred
        have hc : r.channel = params.channel.getD "A3" := by simpa using hpred.1
        have hlt : params.since_id.getD 0 < r.id := of_decide_eq_true hpred.2
        exact absurd hlt (not_lt.mpr (hcover r hr hc))
      have hpts := pgLiveQuery_ok hq
      rw [hfil] at hpts
      simp only [List.insertionSort, List.take_nil, List.map_nil] at hpts
      constructor
      · exact hpts
      · rw [hpts]
        simp

/-- C2: for every /live request against a table whose ids ascend
strictly in storage order, the returned points are exactly the stored
rows of the resolved channel with id above the cursor, in storage
(ascending id) order, truncated to the first effective-limit rows and
projected to (id, ts, value); the result is strictly ascending by id. -/
theorem live_window_exact (table : List EegSample) (params : LiveQuery)
    (resp : LiveResponse) (hasc : StrictAscTable table)
    (hresp : liveOn table params = Except.ok resp) :
    resp.points =
      ((table.filter fun r => r.channel == params.channel.getD "A3" &&
          decide (params.since_id.getD 0 < r.id)).take
        (min (params.limit.getD 200) 1000).toNat).map livePointOfSample ∧
    resp.points.Pairwise fun p q => p.id < q.id := by
  have hasc2 : table.Pairwise fun a b => a.id < b.id := hasc
  have hfil : (table.filter fun r => r.channel == params.channel.getD "A3" &&
      decide (params.since_id.getD 0 < r.id)).Pairwise fun a b => a.id < b.id :=
    List.Pairwise.sublist (List.filter_sublist table) hasc2
  unfold liveOn at hresp
  rw [get_live_eq] at hresp
  cases hq : pgLiveQuery table (params.channel.getD "A3") (params.since_id.getD 0)
      (min (params.limit.getD 200) 1000) with
  | error e => rw [hq] at hresp; cases hresp
  | ok pts =>
    rw [hq] at hresp
    injection hresp with hinj
    subst hinj
    dsimp only
    have hpts := pgLiveQuery_ok hq
    rw [insertionSort_asc_eq_filter hasc] at hpts
    constructor
    · exact hpts
    · rw [hpts, List.pairwise_map]
      exact (List.Pairwise.sublist (List.take_sublist _ _) hfil).imp fun hab => hab

/-- C3: two successive /live polls on the same channel of an unchanged
table, where the second uses the last_id returned by the first as its
cursor, return disjoint point lists, and every id of the second result
is strictly greater than every id of the first. -/
theorem live_poll_disjoint_advancing (table : List EegSample) (p1 p2 : LiveQuery)
    (r1 r2 : LiveResponse)
    (hchan : p2.channel = p1.channel)
    (h1 : liveOn table p1 = Except.ok r1)
    (hsince : p2.since_id = some r1.last_id)
    (h2 : liveOn table p2 = Except.ok r2) :
    (∀ p ∈ r1.points, ∀ q ∈ r2.points, p.id < q.id) ∧
    (∀ p ∈ r1.points, p ∉ r2.points) := by
  have hub : ∀ p ∈ r1.points, p.id ≤ r1.last_id := by
    unfold liveOn at h1
    rw [get_live_eq] at h1
    cases hq : pgLiveQuery table (p1.channel.getD "A3") (p1.since_id.getD 0)
        (min (p1.limit.getD 200) 1000) with
    | error e => rw [hq] at h1; cases h1
    | ok pts =>
      rw [hq] at h1
      injection h1 with hinj
      subst hinj
      dsimp only
      intro p hp
      have hne : pts ≠ [] := by
        intro hnil
        rw [hnil] at hp
        cases hp
      have hsorted : pts.Pairwise fun p q => p.id ≤ q.id := by
        rw [pgLiveQuery_ok hq]
        exact liveSelect_sorted _ _ _ _
      rw [List.getLast?_eq_getLast pts hne]
      exact le_getLast_of_sorted hsorted hne p hp
  have hlb : ∀ q ∈ r2.points, r1.last_id < q.id := by
    unfold liveOn at h2
    rw [get_live_eq] at h2
    cases hq : pgLiveQuery table (p2.channel.getD "A3") (p2.since_id.getD 0)
        (min (p2.limit.getD 200) 1000) with
    | error e => rw [hq] at h2; cases h2
    | ok pts =>
      rw [hq] at h2
      injection h2 with hinj
      subst hinj
      dsimp only
      intro q hq2
      have hpts := pgLiveQuery_ok hq
      rw [hpts] at hq2
      have hgt := liveSelect_mem_gt hq2
      rw [hsince] at hgt
      simpa using hgt
  constructor
  · intro p hp q hq2
    exact lt_of_le_of_lt (hub p hp) (hlb q hq2)
  · intro p hp hcontra
    exact absurd (lt_of_le_of_lt (hub p hp) (hlb p hcontra)) (lt_irrefl p.id)

/-- C5: for every /samples request against a table whose ids ascend
strictly in storage order, the result is the effective-limit stored
rows of the resolved channel with the largest ids, ordered strictly
descending by id: it equals the reversed filtered rows truncated to the
effective limit, and every filtered row left out has a smaller id than
every returned row. -/
theorem samples_window_desc (table : List EegSample) (params : LiveQuery)
    (rows : List EegSample) (hasc : StrictAscTable table)
    (hrows : samplesOn table params = Except.ok rows) :
    rows = ((table.filter fun r => r.channel == params.channel.getD "A3").reverse).take
        (min (params.limit.getD 100) 1000).toNat ∧
    rows.Pairwise (fun a b => b.id < a.id) ∧
    (∀ x ∈ table.filter fun r => r.channel == params.channel.getD "A3",
      x ∉ rows → ∀ y ∈ rows, x.id < y.id) := by
  have hasc2 : table.Pairwise fun a b => a.id < b.id := hasc
  have hfil : (table.filter fun r => r.channel == params.channel.getD "A3").Pairwise
      fun a b => a.id < b.id :=
    List.Pairwise.sublist (List.filter_sublist table) hasc2
  have hrev : (table.filter fun r => r.channel == params.channel.getD "A3").reverse.Pairwise
      fun a b => b.id < a.id := List.pairwise_reverse.mpr hfil
  unfold samplesOn at hrows
  rw [get_samples_eq] at hrows
  cases hq : pgSamplesQuery table (params.channel.getD "A3")
      (min (params.limit.getD 100) 1000) with
  | error e => rw [hq] at hrows; cases hrows
  | ok rs =>
    rw [hq] at hrows
    injection hrows with hinj
    subst hinj
    have hrs := pgSamplesQuery_ok hq
    rw [insertionSort_desc_eq_reverse hfil] at hrs
    refine ⟨hrs, ?_, ?_⟩
    · rw [hrs]
      exact List.Pairwise.sublist (List.take_sublist _ _) hrev
    · intro x hx hnx y hy
      have hxR : x ∈ (table.filter fun r => r.channel == params.channel.getD "A3").reverse :=
        List.mem_reverse.mpr hx
      have hsplit := List.take_append_drop (min (params.limit.getD 100) 1000).toNat
        (table.filter fun r => r.channel == params.channel.getD "A3").reverse
      rw [← hsplit] at hxR
      rcases List.mem_append.mp hxR with hxT | hxD
      · rw [hrs] at hnx
        exact absurd hxT hnx
      · have happ : ((table.filter fun r =>
            r.channel == params.channel.getD "A3").reverse.take
              (min (params.limit.getD 100) 1000).toNat ++
            (table.filter fun r => r.channel == params.channel.getD "A3").reverse.drop
              (min (params.limit.getD 100) 1000).toNat).Pairwise
            fun a b => b.id < a.id := by
          rw [hsplit]
          exact hrev
        have hcross := (List.pairwise_append.mp happ).2.2
        rw [hrs] at hy
        exact hcross y hy x hxD

/-- C6: a /samples or /live request whose resolved channel matches no
stored row succeeds with an empty result set: /samples returns the
empty array and /live returns empty points with last_id equal to
since_id; no error is returned. The limit parameter, when present, is
taken non-negative: a negative limit is the storage-defined open case
outside this contract. -/
theorem unknown_channel_empty (table : List EegSample) (params : LiveQuery)
    (hch : ∀ r ∈ table, ¬ r.channel = params.channel.getD "A3")
    (h100 : 0 ≤ params.limit.getD 100) (h200 : 0 ≤ params.limit.getD 200) :
    samplesOn table params = Except.ok [] ∧
    liveOn table params =
      Except.ok ⟨[], params.since_id.getD 0, params.channel.getD "A3"⟩ := by
  have hfilS : (table.filter fun r => r.channel == params.channel.getD "A3") = [] := by
    rw [List.filter_eq_nil_iff]
    intro r hr hpred
    exact hch r hr (by simpa using hpred)
  have hfilL : (table.filter fun r => r.channel == params.channel.getD "A3" &&
      decide (params.since_id.getD 0 < r.id)) = [] := by
    rw [List.filter_eq_nil_iff]
    intro r hr hpred
    rw [Bool.and_eq_true] at hpred
    exact hch r hr (by simpa using hpred.1)
  constructor
  · unfold samplesOn
    rw [get_samples_eq]
    unfold pgSamplesQuery
    rw [if_neg (not_lt.mpr (le_min h100 (by norm_num))), hfilS]
    simp
  · unfold liveOn
    rw [get_live_eq]
    unfold pgLiveQuery
    rw [if_neg (not_lt.mpr (le_min h200 (by norm_num))), hfilL]
    simp

/-- C8: a /samples or /live request with limit = 0 yields an empty
window, literally zero rows rather than the default window; /live also
keeps last_id at since_id. -/
theorem limit_zero_empty (table : List EegSample) (params : LiveQuery)
    (h0 : params.limit = some 0) :
    samplesOn table params = Except.ok [] ∧
    liveOn table params =
      Except.ok ⟨[], params.since_id.getD 0, params.channel.getD "A3"⟩ := by
  have hl100 : min (params.limit.getD 100) 1000 = 0 := by rw [h0]; rfl
  have hl200 : min (params.limit.getD 200) 1000 = 0 := by rw [h0]; rfl
  constructor
  · unfold samplesOn
    rw [get_samples_eq]
    unfold pgSamplesQuery
    rw [hl100]
    simp
  · unfold liveOn
    rw [get_live_eq]
    unfold pgLiveQuery
    rw [hl200]
    simp

/-- C1 witness: the /live request with cursor 2 on the demo table
returns ids 3 and 5 with last_id 5. -/
theorem live_last_id_cursor_witness :
    liveOn demoTable demoLiveParams = Except.ok demoLiveResp ∧
    ((demoLiveResp.points ≠ [] →
        demoLiveResp.last_id ∈ demoLiveResp.points.map LivePoint.id ∧
        ∀ p ∈ demoLiveResp.points, p.id ≤ demoLiveResp.last_id) ∧
      (demoLiveResp.points = [] →
        demoLiveResp.last_id = demoLiveParams.since_id.getD 0) ∧
      ((∀ r ∈ demoTable, r.channel = demoLiveParams.channel.getD "A3" →
          r.id ≤ demoLiveParams.since_id.getD 0) →
        demoLiveResp.points = [] ∧
          demoLiveResp.last_id = demoLiveParams.since_id.getD 0)) :=
  ⟨rfl, live_last_id_cursor demoTable demoLiveParams demoLiveResp rfl⟩

/-- C2 witness: the same request evaluated concretely: exactly the
filtered rows above the cursor, ascending, projected. -/
theorem live_window_exact_witness :
    StrictAscTable demoTable ∧
    liveOn demoTable demoLiveParams = Except.ok demoLiveResp ∧
    (demoLiveResp.points =
      ((demoTable.filter fun r => r.channel == demoLiveParams.channel.getD "A3" &&
          decide (demoLiveParams.since_id.getD 0 < r.id)).take
        (min (demoLiveParams.limit.getD 200) 1000).toNat).map livePointOfSample ∧
      demoLiveResp.points.Pairwise fun p q => p.id < q.id) :=
  ⟨by decide, rfl, live_window_exact demoTable demoLiveParams demoLiveResp (by decide) rfl⟩

/-- C3 witness: poll with cursor 0 and limit 2 (ids 1, 2, last_id 2),
then poll again with cursor 2: ids 3, 5, disjoint and strictly above. -/
theorem live_poll_disjoint_advancing_witness :
    demoLiveParams.channel = demoFirstParams.channel ∧
    liveOn demoTable demoFirstParams = Except.ok demoFirstResp ∧
    demoLiveParams.since_id = some demoFirstResp.last_id ∧
    liveOn demoTable demoLiveParams = Except.ok demoLiveResp ∧
    ((∀ p ∈ demoFirstResp.points, ∀ q ∈ demoLiveResp.points, p.id < q.id) ∧
      (∀ p ∈ demoFirstResp.points, p ∉ demoLiveResp.points)) :=
  ⟨rfl, rfl, rfl, rfl,
    live_poll_disjoint_advancing demoTable demoFirstParams demoLiveParams demoFirstResp
      demoLiveResp rfl rfl rfl rfl⟩

/-- C5 witness: /samples with limit 2 on the demo table returns ids 5
then 3, the two largest ids of channel A3, descending. -/
theorem samples_window_desc_witness :
    StrictAscTable demoTable ∧
    samplesOn demoTable demoSamplesParams = Except.ok demoSamplesRows ∧
    (demoSamplesRows = ((demoTable.filter fun r =>
        r.channel == demoSamplesParams.channel.getD "A3").reverse).take
        (min (demoSamplesParams.limit.getD 100) 1000).toNat ∧
      demoSamplesRows.Pairwise (fun a b => b.id < a.id) ∧
      (∀ x ∈ demoTable.filter fun r => r.channel == demoSamplesParams.channel.getD "A3",
        x ∉ demoSamplesRows → ∀ y ∈ demoSamplesRows, x.id < y.id)) :=
  ⟨by decide, rfl,
    samples_window_desc demoTable demoSamplesParams demoSamplesRows (by decide) rfl⟩

/-- C6 witness: channel ZZ matches nothing stored; both endpoints
succeed with empty results and /live keeps last_id at since_id 3. -/
theorem unknown_channel_empty_witness :
    (∀ r ∈ demoTable, ¬ r.channel = demoUnknownParams.channel.getD "A3") ∧
    0 ≤ demoUnknownParams.limit.getD 100 ∧
    0 ≤ demoUnknownParams.limit.getD 200 ∧
    (samplesOn demoTable demoUnknownParams = Except.ok [] ∧
      liveOn demoTable demoUnknownParams =
        Except.ok ⟨[], demoUnknownParams.since_id.getD 0,
          demoUnknownParams.channel.getD "A3"⟩) :=
  ⟨by decide, by decide, by decide,
    unknown_channel_empty demoTable demoUnknownParams (by decide) (by decide) (by decide)⟩

/-- C8 witness: limit 0 yields zero rows on the demo table even though
channel A3 has stored rows beyond cursor 7 is moot: the window is empty
and last_id stays 7. -/
theorem limit_zero_empty_witness :
    demoZeroParams.limit = some 0 ∧
    (samplesOn demoTable demoZeroParams = Except.ok [] ∧
      liveOn demoTable demoZeroParams =
        Except.ok ⟨[], demoZeroParams.since_id.getD 0, demoZeroParams.channel.getD "A3"⟩) :=
  ⟨rfl, limit_zero_empty demoTable demoZeroParams rfl⟩
